import Mathlib

/-!
Shallow embedding of the PlaceTheCountry visualization core
(src/components/Projection2DGlobe.tsx, AccurateGlobe.tsx, LowPolyGlobe.tsx,
WebGPUGlobe.tsx and src/src/components/AccurateGlobe.tsx), together with
theorems settling the specification claims about it.
-/

namespace PlaceTheCountry

/-! ## Data model: country features (shared across all renderer variants) -/

/-- Property bag of a country feature, mirroring the CountryFeature
interface of the TypeScript components (ADMIN, ISO_A2, POP_EST, NAME,
plus the ISO_A3 field read by the 50m AccurateGlobe variant). -/
structure CountryProps where
  ADMIN : Option String
  ISO_A2 : Option String
  ISO_A3 : Option String
  POP_EST : Option Nat
  NAME : Option String
deriving DecidableEq

/-- A GeoJSON country feature (geometry payload abstracted away: no
claim depends on ring coordinates). -/
structure CountryFeature where
  props : CountryProps
deriving DecidableEq

/-- Concrete feature used in closed counterexamples and witnesses. -/
def franceFeature : CountryFeature :=
  ⟨⟨some "France", some "FR", some "FRA", some 67000000, some "France"⟩⟩

/-! ## Projection2DGlobe interaction state (src/components/Projection2DGlobe.tsx) -/

/-- ProjectionConfig state of Projection2DGlobe (lines 19-23). -/
structure ProjectionConfig where
  rotate : ℚ × ℚ × ℚ
  scale : ℚ
  translate : ℚ × ℚ
deriving DecidableEq

/-- Initial projectionConfig of Projection2DGlobe (lines 31-35). -/
def initialProjectionConfig : ProjectionConfig :=
  { rotate := (0, 0, 0), scale := 200, translate := (400, 300) }

/-- React state of the Projection2DGlobe component (lines 26-38). -/
structure Projection2DState where
  countries : List CountryFeature
  selectedCountry : Option CountryFeature
  hoveredCountry : Option CountryFeature
  isLoading : Bool
  error : Option String
  projectionConfig : ProjectionConfig
  isRotating : Bool
  zoom : ℚ
deriving DecidableEq

/-- The Reset View button onClick of Projection2DGlobe (lines 268-276):
setProjectionConfig to the initial config and setZoom 1.  No other state
setter is invoked. -/
def resetView (s : Projection2DState) : Projection2DState :=
  { s with projectionConfig := initialProjectionConfig, zoom := 1 }

/-- handleCountryClick of Projection2DGlobe (lines 88-92):
setSelectedCountry(country); setIsRotating(false). -/
def proj2dHandleCountryClick (g : CountryFeature) (s : Projection2DState) :
    Projection2DState :=
  { s with selectedCountry := some g, isRotating := false }

/-- handleCountryHover of Projection2DGlobe (lines 95-98). -/
def proj2dHandleCountryHover (g : Option CountryFeature) (s : Projection2DState) :
    Projection2DState :=
  { s with hoveredCountry := g }

/-! ## Zoom (handleWheel of Projection2DGlobe, lines 133-137) -/

/-- The clamp applied by handleWheel: Math.max(0.5, Math.min(3, z)). -/
def clampZoom (z : ℚ) : ℚ := max (1/2) (min 3 z)

/-- One multiplicative zoom application with the [0.5, 3] clamp, the body
of setZoom in handleWheel: prev is multiplied by the factor and clamped. -/
def applyZoom (factor : ℚ) (z : ℚ) : ℚ := clampZoom (z * factor)

/-- handleWheel of Projection2DGlobe: the factor is 0.9 for a downward
wheel delta and 1.1 otherwise. -/
def handleWheel (deltaY : ℚ) (z : ℚ) : ℚ :=
  applyZoom (if deltaY > 0 then 9/10 else 11/10) z

/-! ## AccurateGlobe interaction state
(src/components/AccurateGlobe.tsx and src/src/components/AccurateGlobe.tsx) -/

/-- React state of the AccurateGlobe components plus the autoRotate flag
living on the orbit controls (set true at mount, lines 72 resp. 102). -/
structure AccurateGlobeState where
  countries : List CountryFeature
  selectedCountry : Option CountryFeature
  hoveredCountry : Option CountryFeature
  isLoading : Bool
  error : Option String
  autoRotate : Bool
deriving DecidableEq

/-- handleCountryClick of the 110m AccurateGlobe (src/components, lines
95-108): setSelectedCountry(country) and a camera pointOfView move; the
controls autoRotate flag is not touched. -/
def accurateHandleCountryClick (g : CountryFeature) (s : AccurateGlobeState) :
    AccurateGlobeState :=
  { s with selectedCountry := some g }

/-- handleCountryClick of the 50m AccurateGlobe (src/src/components,
lines 125-128): setSelectedCountry(country) only. -/
def accurate50HandleCountryClick (g : CountryFeature) (s : AccurateGlobeState) :
    AccurateGlobeState :=
  { s with selectedCountry := some g }

/-! ## Country color hash (src/src/components/AccurateGlobe.tsx, lines 20-59) -/

/-- COUNTRY_COLORS palette of the 50m AccurateGlobe (lines 20-40). -/
def COUNTRY_COLORS : List String :=
  ["#49ac8f", "#5fb399", "#4a90a4", "#6fa86f", "#8fb3d9", "#7c9a92",
   "#a3c4bc", "#b8d4be", "#90be6d", "#43aa8b", "#577590", "#6d597a",
   "#b56576", "#e09f3e", "#9b5de5", "#00bbf9", "#fee440", "#f15bb5",
   "#00f5d4"]

/-- JavaScript ToInt32 conversion (applied by the << operator). -/
def toInt32 (n : ℤ) : ℤ := (n + 2 ^ 31) % 2 ^ 32 - 2 ^ 31

/-- One step of the getCountryColor hash loop (line 55):
hash = charCode + ((hash << 5) - hash), where << coerces its operand to a
32-bit signed integer and wraps.  The surrounding additions are exact
(double arithmetic on integers of this magnitude is exact). -/
def hashStep (h : ℤ) (c : ℕ) : ℤ := (c : ℤ) + (toInt32 (toInt32 h * 32) - h)

/-- The getCountryColor string hash (lines 53-56), folded over the UTF-16
code units of the ISO code (ASCII for all ISO codes). -/
def hashString (s : String) : ℤ := s.data.foldl (fun h ch => hashStep h ch.toNat) 0

/-- JavaScript truthiness of an optional string: undefined and the empty
string are falsy. -/
def jsTruthy (s : Option String) : Bool :=
  match s with
  | none => false
  | some str => str ≠ ""

/-- The ISO code chosen on line 52:
country.properties ISO_A2, else ISO_A3, else the fallback XX, with
JavaScript truthiness semantics for the fallback chain. -/
def isoCodeOf (p : CountryProps) : String :=
  if jsTruthy p.ISO_A2 then p.ISO_A2.getD ""
  else if jsTruthy p.ISO_A3 then p.ISO_A3.getD ""
  else "XX"

/-- colorIndex computed on line 57: Math.abs(hash) % COUNTRY_COLORS.length. -/
def colorIndex (iso : String) : ℕ := (hashString iso).natAbs % COUNTRY_COLORS.length

/-- getCountryColor (lines 51-59): the palette entry at colorIndex.  The
JavaScript indexing yields undefined out of bounds, modelled by Option. -/
def getCountryColor (f : CountryFeature) : Option String :=
  COUNTRY_COLORS.get? (colorIndex (isoCodeOf f.props))

/-- getPolygonCapColor of the 110m AccurateGlobe (src/components, lines
134-144): fixed colors, the base color is the constant Shopify green. -/
def accurateCapColor (selected hovered : Option CountryFeature)
    (f : CountryFeature) : Option String :=
  if selected = some f then some "#5fb399"
  else if hovered = some f then some "#66c0a8"
  else some "#49ac8f"

/-- getPolygonCapColor of the 50m AccurateGlobe (src/src/components,
lines 145-150): gold when selected, white when hovered, otherwise the
hash-derived country color. -/
def accurate50CapColor (selected hovered : Option CountryFeature)
    (f : CountryFeature) : Option String :=
  if selected = some f then some "#ffd700"
  else if hovered = some f then some "#ffffff"
  else getCountryColor f

/-- The default fill of getGeographyStyle in Projection2DGlobe (lines
143-156): selected, hovered, else the constant base green. -/
def proj2dBaseFill (selected hovered : Option CountryFeature)
    (f : CountryFeature) : Option String :=
  if selected = some f then some "#5fb399"
  else if hovered = some f then some "#66c0a8"
  else some "#49ac8f"

/-- The hash-palette color the specification asserts every variant uses
for unselected, unhovered features. -/
def hashPaletteColor (f : CountryFeature) : Option String :=
  COUNTRY_COLORS.get? (colorIndex (isoCodeOf f.props))

/-! ## Capability detection (src/components/WebGPUGlobe.tsx, lines 11-17 and 318-366) -/

/-- The runtime environments the WebGPU probe can encounter: the gpu
property missing from navigator, nav.gpu falsy, requestAdapter resolving
with or without an adapter, or the probe throwing or rejecting. -/
inductive GpuProbeEnv where
  | noGpuInNavigator
  | gpuFieldNull
  | adapterResult (adapterPresent : Bool)
  | requestAdapterThrows
deriving DecidableEq

/-- Outcome of an asynchronous probe: a resolved boolean or a rejection. -/
inductive ProbeOutcome where
  | ok (supported : Bool)
  | error
deriving DecidableEq

/-- isWebGPUSupported (lines 11-17): returns false when the gpu property
is absent or falsy or no adapter is obtained; a throwing or rejecting
requestAdapter propagates as a rejection. -/
def isWebGPUSupported : GpuProbeEnv → ProbeOutcome
  | GpuProbeEnv.noGpuInNavigator => ProbeOutcome.ok false
  | GpuProbeEnv.gpuFieldNull => ProbeOutcome.ok false
  | GpuProbeEnv.adapterResult p => ProbeOutcome.ok p
  | GpuProbeEnv.requestAdapterThrows => ProbeOutcome.error

/-- checkWebGPU (lines 321-356): awaits isWebGPUSupported inside
try/catch; the catch arm sets the tier to false.  Total by construction,
so no exception reaches the host. -/
def checkWebGPU (env : GpuProbeEnv) : Bool :=
  match isWebGPUSupported env with
  | ProbeOutcome.ok b => b
  | ProbeOutcome.error => false

/-- Width segment count of the globe sphere (line 87). -/
def sphereWidthSegments (isWebGPU : Bool) : ℕ := if isWebGPU then 128 else 64

/-- Height segment count of the globe sphere (line 87). -/
def sphereHeightSegments (isWebGPU : Bool) : ℕ := if isWebGPU then 64 else 32

/-! ## Data loader (src/components/Projection2DGlobe.tsx, lines 41-71,
identical in both AccurateGlobe variants) -/

/-- A fetch response: the ok flag and status of the transport, and the
feature list obtained from the topology payload, none when parsing or
conversion would throw. -/
structure FetchResponse where
  ok : Bool
  status : ℕ
  payload : Option (List CountryFeature)
deriving DecidableEq

/-- The loader-visible slice of component state. -/
structure LoaderState where
  countries : List CountryFeature
  isLoading : Bool
  error : Option String
deriving DecidableEq

/-- State at mount: empty countries, loading, no error. -/
def initialLoaderState : LoaderState :=
  { countries := [], isLoading := true, error := none }

/-- The Antarctica filter (lines 57-59): keep features whose ISO_A2 is
not the reserved code AQ (an absent code is kept, as undefined differs
from the string in JavaScript). -/
def filterCountries (fs : List CountryFeature) : List CountryFeature :=
  fs.filter (fun f => decide (f.props.ISO_A2 ≠ some "AQ"))

/-- The error message set by the catch arm (line 65). -/
def loadErrorMessage : String := "Failed to load country data. Please try again."

/-- loadCountryData (lines 42-68): a non-ok response throws and is caught,
setting the error message and clearing isLoading without touching
countries; a malformed payload takes the same catch arm; otherwise the
filtered features are stored and the error cleared. -/
def loadCountryData (resp : FetchResponse) (s : LoaderState) : LoaderState :=
  if resp.ok then
    match resp.payload with
    | none => { s with isLoading := false, error := some loadErrorMessage }
    | some fs =>
        { s with countries := filterCountries fs, isLoading := false, error := none }
  else { s with isLoading := false, error := some loadErrorMessage }

/-- What the component renders, by the early returns of Projection2DGlobe
(lines 200-229): the loading placeholder while isLoading, the error
placeholder when error is set, else the map over the loaded countries. -/
inductive RenderOutput where
  | loadingPlaceholder
  | errorPlaceholder (message : String)
  | mapView (countries : List CountryFeature)
deriving DecidableEq

/-- The render dispatch of Projection2DGlobe (lines 200-231). -/
def renderProjection2D (s : LoaderState) : RenderOutput :=
  if s.isLoading then RenderOutput.loadingPlaceholder
  else
    match s.error with
    | some msg => RenderOutput.errorPlaceholder msg
    | none => RenderOutput.mapView s.countries

/-! ## Procedural geometry (src/components/LowPolyGlobe.tsx lines 50-81
and src/components/WebGPUGlobe.tsx lines 86-149) -/

/-- A THREE.Vector3. -/
structure Vec3 where
  x : ℝ
  y : ℝ
  z : ℝ

/-- Length of a vector (THREE.Vector3.length). -/
noncomputable def norm3 (v : Vec3) : ℝ := Real.sqrt (v.x ^ 2 + v.y ^ 2 + v.z ^ 2)

/-- Scalar multiple of a vector (THREE.Vector3.multiplyScalar). -/
noncomputable def smul3 (c : ℝ) (v : Vec3) : Vec3 := ⟨c * v.x, c * v.y, c * v.z⟩

/-- The two noise octaves of LowPolyGlobe (lines 61-66), already scaled:
noise * 0.08 plus largeScaleNoise * 0.12, both evaluated on the raw
(pre-normalization) vertex coordinates. -/
noncomputable def lowPolyNoiseSum (v : Vec3) : ℝ :=
  Real.sin (v.x * 4) * Real.cos (v.y * 4) * Real.sin (v.z * 4) * (8/100)
  + Real.sin (v.x * 2) * Real.sin (v.y * 2) * (12/100)

/-- Line 69 of LowPolyGlobe:
vertex.normalize().multiplyScalar(1 + displacement + largeDisplacement).
Normalization divides by the vertex length before scaling, so the result
has length around 1 whatever the base radius of the sphere was. -/
noncomputable def lowPolyDisplace (v : Vec3) : Vec3 :=
  smul3 ((1 + lowPolyNoiseSum v) / norm3 v) v

/-- The three noise octaves of WebGPUGlobe (lines 97-101), summed and
scaled by 0.03. -/
noncomputable def webgpuNoiseSum (v : Vec3) : ℝ :=
  (Real.sin (v.x * 8) * Real.cos (v.y * 8) * Real.sin (v.z * 8)
   + Real.sin (v.x * 16) * Real.cos (v.y * 16) * Real.sin (v.z * 16) * (1/2)
   + Real.sin (v.x * 4) * Real.cos (v.y * 4) * Real.sin (v.z * 4) * 2) * (3/100)

/-- Line 104 of WebGPUGlobe: vertex.normalize().multiplyScalar(1 + displacement). -/
noncomputable def webgpuDisplace (v : Vec3) : Vec3 :=
  smul3 ((1 + webgpuNoiseSum v) / norm3 v) v

/-- An rgb vertex color triple. -/
structure Color3 where
  r : ℝ
  g : ℝ
  b : ℝ

/-- The ocean base color of the WebGPUGlobe color loop (line 125). -/
noncomputable def oceanColor : Color3 := ⟨1/10, 3/10, 6/10⟩

/-- The snow override color (lines 135-137). -/
noncomputable def snowColor : Color3 := ⟨9/10, 9/10, 1⟩

/-- The elevation-scaled land color (lines 129-131). -/
noncomputable def landColor (elevation : ℝ) : Color3 :=
  ⟨3/10 + elevation * 2, 4/10 + elevation * (3/2), 2/10 + elevation * (1/2)⟩

/-- The per-vertex biome rule of WebGPUGlobe (lines 120-143): ocean by
default; land when elevation exceeds 0.01; inside the land branch only,
snow when the absolute height-axis component exceeds 0.8. -/
noncomputable def vertexColor (latitude elevation : ℝ) : Color3 :=
  if elevation > 1/100 then
    if latitude > 4/5 then snowColor else landColor elevation
  else oceanColor

/-- One vertex of the THREE.SphereGeometry UV tessellation: with
u = ix / widthSegments and v = iy / heightSegments, position
(-r cos(2 pi u) sin(pi v), r cos(pi v), r sin(2 pi u) sin(pi v)). -/
noncomputable def sphereVertex (radius : ℝ) (wSeg hSeg ix iy : ℕ) : Vec3 :=
  ⟨-radius * Real.cos ((ix / wSeg) * (2 * Real.pi)) * Real.sin ((iy / hSeg) * Real.pi),
    radius * Real.cos ((iy / hSeg) * Real.pi),
    radius * Real.sin ((ix / wSeg) * (2 * Real.pi)) * Real.sin ((iy / hSeg) * Real.pi)⟩

/-- The full vertex list of THREE.SphereGeometry(radius, wSeg, hSeg):
rows iy = 0..hSeg, each of columns ix = 0..wSeg. -/
noncomputable def sphereVertices (radius : ℝ) (wSeg hSeg : ℕ) : List Vec3 :=
  (List.range (hSeg + 1)).flatMap fun iy =>
    (List.range (wSeg + 1)).map fun ix => sphereVertex radius wSeg hSeg ix iy

/-- Displaced position and vertex color of one WebGPUGlobe vertex (the
second loop reads the already displaced positions: latitude is the
absolute y of the displaced vertex, elevation its length minus 1). -/
noncomputable def webgpuVertexData (v : Vec3) : Vec3 × Color3 :=
  (webgpuDisplace v, vertexColor |(webgpuDisplace v).y| (norm3 (webgpuDisplace v) - 1))

/-- The geometry of the WebGPUGlobe useMemo (lines 86-149), as a function
of the quality tier and of the ambient Math.random stream, which this
computation never reads (the stream is consumed only by the starfield). -/
noncomputable def webgpuGeometry (isWebGPU : Bool) (random : ℕ → ℝ) :
    List (Vec3 × Color3) :=
  (sphereVertices 1 (sphereWidthSegments isWebGPU) (sphereHeightSegments isWebGPU)).map
    webgpuVertexData

/-- The geometry of the LowPolyGlobe useMemo (lines 50-81): sphere of
base radius 2, 12 x 8 segments, displaced per vertex; again a function of
the ambient Math.random stream that it never reads. -/
noncomputable def lowPolyGeometry (random : ℕ → ℝ) : List Vec3 :=
  (sphereVertices 2 12 8).map lowPolyDisplace

/-- One star of the WebGPUGlobe StarField (lines 212-218), the one place
in the file that does consume the Math.random stream. -/
noncomputable def starPosition (random : ℕ → ℝ) (i : ℕ) : Vec3 :=
  ⟨(8 + random (3 * i + 2) * 2) * Real.sin (Real.arccos (2 * random (3 * i + 1) - 1))
      * Real.cos (random (3 * i) * (2 * Real.pi)),
    (8 + random (3 * i + 2) * 2) * Real.sin (Real.arccos (2 * random (3 * i + 1) - 1))
      * Real.sin (random (3 * i) * (2 * Real.pi)),
    (8 + random (3 * i + 2) * 2) * Real.cos (Real.arccos (2 * random (3 * i + 1) - 1))⟩

/-! ## Helper lemmas about the displacement geometry -/

/-- Scaling a vector scales its length by the absolute scalar. -/
theorem norm3_smul3 (c : ℝ) (v : Vec3) : norm3 (smul3 c v) = |c| * norm3 v := by
  unfold norm3 smul3
  have h : (c * v.x) ^ 2 + (c * v.y) ^ 2 + (c * v.z) ^ 2
      = c ^ 2 * (v.x ^ 2 + v.y ^ 2 + v.z ^ 2) := by ring
  rw [h, Real.sqrt_mul (sq_nonneg c), Real.sqrt_sq_eq_abs]

/-- A product of three sine and cosine values has absolute value at most one. -/
theorem abs_trig_mul_le_one (a b c : ℝ) :
    |Real.sin a * Real.cos b * Real.sin c| ≤ 1 := by
  rw [abs_mul, abs_mul]
  have hab : |Real.sin a| * |Real.cos b| ≤ 1 :=
    mul_le_one₀ (Real.abs_sin_le_one a) (abs_nonneg _) (Real.abs_cos_le_one b)
  exact mul_le_one₀ hab (abs_nonneg _) (Real.abs_sin_le_one c)

/-- The summed low-poly octaves stay within 0.08 + 0.12 = 0.2. -/
theorem abs_lowPolyNoiseSum_le (v : Vec3) : |lowPolyNoiseSum v| ≤ 1/5 := by
  unfold lowPolyNoiseSum
  have h1 : |Real.sin (v.x * 4) * Real.cos (v.y * 4) * Real.sin (v.z * 4) * (8/100)|
      ≤ 8/100 := by
    rw [abs_mul, show |(8/100 : ℝ)| = 8/100 by norm_num]
    have := abs_trig_mul_le_one (v.x * 4) (v.y * 4) (v.z * 4)
    nlinarith [abs_nonneg (Real.sin (v.x * 4) * Real.cos (v.y * 4) * Real.sin (v.z * 4))]
  have h2 : |Real.sin (v.x * 2) * Real.sin (v.y * 2) * (12/100)| ≤ 12/100 := by
    rw [abs_mul, show |(12/100 : ℝ)| = 12/100 by norm_num]
    have hs : |Real.sin (v.x * 2) * Real.sin (v.y * 2)| ≤ 1 := by
      rw [abs_mul]
      exact mul_le_one₀ (Real.abs_sin_le_one _) (abs_nonneg _) (Real.abs_sin_le_one _)
    nlinarith [abs_nonneg (Real.sin (v.x * 2) * Real.sin (v.y * 2))]
  calc |Real.sin (v.x * 4) * Real.cos (v.y * 4) * Real.sin (v.z * 4) * (8/100)
        + Real.sin (v.x * 2) * Real.sin (v.y * 2) * (12/100)|
      ≤ |Real.sin (v.x * 4) * Real.cos (v.y * 4) * Real.sin (v.z * 4) * (8/100)|
        + |Real.sin (v.x * 2) * Real.sin (v.y * 2) * (12/100)| := abs_add _ _
    _ ≤ 8/100 + 12/100 := add_le_add h1 h2
    _ = 1/5 := by norm_num

/-- The summed WebGPU octaves stay within (1 + 1/2 + 2) * 0.03 = 0.105. -/
theorem abs_webgpuNoiseSum_le (v : Vec3) : |webgpuNoiseSum v| ≤ 21/200 := by
  unfold webgpuNoiseSum
  rw [abs_mul, show |(3/100 : ℝ)| = 3/100 by norm_num]
  have h1 := abs_trig_mul_le_one (v.x * 8) (v.y * 8) (v.z * 8)
  have h2 : |Real.sin (v.x * 16) * Real.cos (v.y * 16) * Real.sin (v.z * 16) * (1/2)|
      ≤ 1/2 := by
    rw [abs_mul, show |(1/2 : ℝ)| = 1/2 by norm_num]
    have := abs_trig_mul_le_one (v.x * 16) (v.y * 16) (v.z * 16)
    nlinarith [abs_nonneg (Real.sin (v.x * 16) * Real.cos (v.y * 16) * Real.sin (v.z * 16))]
  have h3 : |Real.sin (v.x * 4) * Real.cos (v.y * 4) * Real.sin (v.z * 4) * 2| ≤ 2 := by
    rw [abs_mul, show |(2 : ℝ)| = 2 by norm_num]
    have := abs_trig_mul_le_one (v.x * 4) (v.y * 4) (v.z * 4)
    nlinarith [abs_nonneg (Real.sin (v.x * 4) * Real.cos (v.y * 4) * Real.sin (v.z * 4))]
  have hsum : |Real.sin (v.x * 8) * Real.cos (v.y * 8) * Real.sin (v.z * 8)
      + Real.sin (v.x * 16) * Real.cos (v.y * 16) * Real.sin (v.z * 16) * (1/2)
      + Real.sin (v.x * 4) * Real.cos (v.y * 4) * Real.sin (v.z * 4) * 2| ≤ 7/2 := by
    calc |Real.sin (v.x * 8) * Real.cos (v.y * 8) * Real.sin (v.z * 8)
          + Real.sin (v.x * 16) * Real.cos (v.y * 16) * Real.sin (v.z * 16) * (1/2)
          + Real.sin (v.x * 4) * Real.cos (v.y * 4) * Real.sin (v.z * 4) * 2|
        ≤ |Real.sin (v.x * 8) * Real.cos (v.y * 8) * Real.sin (v.z * 8)
            + Real.sin (v.x * 16) * Real.cos (v.y * 16) * Real.sin (v.z * 16) * (1/2)|
          + |Real.sin (v.x * 4) * Real.cos (v.y * 4) * Real.sin (v.z * 4) * 2| := abs_add _ _
      _ ≤ (|Real.sin (v.x * 8) * Real.cos (v.y * 8) * Real.sin (v.z * 8)|
            + |Real.sin (v.x * 16) * Real.cos (v.y * 16) * Real.sin (v.z * 16) * (1/2)|) + 2 :=
          add_le_add (abs_add _ _) h3
      _ ≤ (1 + 1/2) + 2 := by
          have := add_le_add h1 h2
          linarith
      _ = 7/2 := by norm_num
  nlinarith [abs_nonneg (Real.sin (v.x * 8) * Real.cos (v.y * 8) * Real.sin (v.z * 8)
      + Real.sin (v.x * 16) * Real.cos (v.y * 16) * Real.sin (v.z * 16) * (1/2)
      + Real.sin (v.x * 4) * Real.cos (v.y * 4) * Real.sin (v.z * 4) * 2)]

/-- Radius of a displaced low-poly vertex: normalization divides the base
radius away, leaving 1 + noise. -/
theorem lowPoly_displaced_radius (v : Vec3) (hv : 0 < norm3 v) :
    norm3 (lowPolyDisplace v) = 1 + lowPolyNoiseSum v := by
  have hb := abs_le.mp (abs_lowPolyNoiseSum_le v)
  have hpos : 0 < 1 + lowPolyNoiseSum v := by linarith [hb.1]
  unfold lowPolyDisplace
  rw [norm3_smul3, abs_div, abs_of_pos hpos, abs_of_pos hv,
    div_mul_cancel₀ _ (ne_of_gt hv)]

/-- Radius of a displaced WebGPU vertex. -/
theorem webgpu_displaced_radius (v : Vec3) (hv : 0 < norm3 v) :
    norm3 (webgpuDisplace v) = 1 + webgpuNoiseSum v := by
  have hb := abs_le.mp (abs_webgpuNoiseSum_le v)
  have hpos : 0 < 1 + webgpuNoiseSum v := by linarith [hb.1]
  unfold webgpuDisplace
  rw [norm3_smul3, abs_div, abs_of_pos hpos, abs_of_pos hv,
    div_mul_cancel₀ _ (ne_of_gt hv)]

/-- The low-poly noise octaves vanish at the pole vertex (0, 2, 0). -/
theorem lowPolyNoiseSum_pole : lowPolyNoiseSum ⟨0, 2, 0⟩ = 0 := by
  simp [lowPolyNoiseSum]

/-- The pole vertex of the radius-2 sphere has length 2. -/
theorem norm3_pole2 : norm3 ⟨0, 2, 0⟩ = 2 := by
  unfold norm3
  rw [show (0:ℝ) ^ 2 + 2 ^ 2 + 0 ^ 2 = 2 ^ 2 by norm_num, Real.sqrt_sq (by norm_num)]

/-- The WebGPU noise octaves vanish at the pole vertex (0, 1, 0). -/
theorem webgpuNoiseSum_pole : webgpuNoiseSum ⟨0, 1, 0⟩ = 0 := by
  simp [webgpuNoiseSum]

/-- The pole vertex of the unit sphere has length 1. -/
theorem norm3_unitPole : norm3 ⟨0, 1, 0⟩ = 1 := by
  unfold norm3
  rw [show (0:ℝ) ^ 2 + 1 ^ 2 + 0 ^ 2 = 1 by norm_num, Real.sqrt_one]

/-- The WebGPU displacement fixes the unit pole vertex. -/
theorem webgpuDisplace_pole : webgpuDisplace ⟨0, 1, 0⟩ = ⟨0, 1, 0⟩ := by
  unfold webgpuDisplace
  rw [webgpuNoiseSum_pole, norm3_unitPole]
  simp [smul3]

/-! ## Concrete states used by counterexamples and witnesses -/

/-- A Projection2DGlobe state in which a country is selected and another
interaction round left a hovered country and auto-rotation running. -/
def proj2dStateWithSelection : Projection2DState :=
  { countries := [franceFeature], selectedCountry := some franceFeature,
    hoveredCountry := some franceFeature, isLoading := false, error := none,
    projectionConfig := { rotate := (30, 10, 0), scale := 200, translate := (400, 300) },
    isRotating := true, zoom := 2 }

/-- An AccurateGlobe state with auto-rotation active, as after mount. -/
def accurateAutoRotatingState : AccurateGlobeState :=
  { countries := [franceFeature], selectedCountry := none, hoveredCountry := none,
    isLoading := false, error := none, autoRotate := true }

/-- A 404 fetch response. -/
def notFoundResponse : FetchResponse := { ok := false, status := 404, payload := none }

/-! ## Claims -/

/-- Claim C1, counterexample: in the state proj2dStateWithSelection the
Reset View action leaves both the selected and the hovered feature in
place, while the claim requires them back at their initial value none. -/
theorem C1_reset_counterexample :
    (resetView proj2dStateWithSelection).selectedCountry = some franceFeature ∧
    (resetView proj2dStateWithSelection).hoveredCountry = some franceFeature ∧
    some franceFeature ≠ (none : Option CountryFeature) := by
  refine ⟨rfl, rfl, ?_⟩
  simp

/-- Claim C1, amended: the Reset View action returns the projection
configuration (rotation, scale, translation) and the zoom factor to their
initial values, and leaves the hovered feature, the selected feature and
the auto-rotate flag unchanged. -/
theorem C1_reset_amended (s : Projection2DState) :
    (resetView s).projectionConfig = initialProjectionConfig ∧
    (resetView s).zoom = 1 ∧
    (resetView s).selectedCountry = s.selectedCountry ∧
    (resetView s).hoveredCountry = s.hoveredCountry ∧
    (resetView s).isRotating = s.isRotating :=
  ⟨rfl, rfl, rfl, rfl, rfl⟩

/-- Claim C2, counterexample: the displaced pole vertex of the WebGPU
globe has absolute height-axis component 1 > 0.8 and elevation 0, at or
below the ocean threshold 0.01, yet its color is the ocean color, not the
snow color: the snow override applies only inside the land branch. -/
theorem C2_snow_counterexample :
    (webgpuVertexData ⟨0, 1, 0⟩).2 = oceanColor ∧
    |(webgpuDisplace ⟨0, 1, 0⟩).y| > 4/5 ∧
    norm3 (webgpuDisplace ⟨0, 1, 0⟩) - 1 ≤ 1/100 ∧
    oceanColor ≠ snowColor := by
  refine ⟨?_, ?_, ?_, ?_⟩
  · show vertexColor |(webgpuDisplace ⟨0, 1, 0⟩).y| (norm3 (webgpuDisplace ⟨0, 1, 0⟩) - 1)
      = oceanColor
    rw [webgpuDisplace_pole, norm3_unitPole]
    unfold vertexColor
    rw [if_neg (by norm_num)]
  · rw [webgpuDisplace_pole]
    show |(1 : ℝ)| > 4/5
    rw [abs_one]
    norm_num
  · rw [webgpuDisplace_pole, norm3_unitPole]
    norm_num
  · intro h
    have hr := congrArg Color3.r h
    simp [oceanColor, snowColor] at hr
    norm_num at hr

/-- Claim C2, amended: a vertex is snow colored exactly when its absolute
height-axis component exceeds 0.8 and in addition its elevation exceeds
the ocean threshold 0.01; a high-latitude vertex at or below the ocean
threshold keeps the ocean color. -/
theorem C2_snow_amended :
    (∀ lat elev : ℝ, 4/5 < lat → 1/100 < elev → vertexColor lat elev = snowColor) ∧
    (∀ lat elev : ℝ, elev ≤ 1/100 → vertexColor lat elev = oceanColor) := by
  constructor
  · intro lat elev hl he
    unfold vertexColor
    rw [if_pos he, if_pos hl]
  · intro lat elev he
    unfold vertexColor
    rw [if_neg (not_lt.mpr he)]

/-- Claim C2, witness: the amended theorem applied at latitude 1 with
elevation 1 (snow) and elevation 0 (ocean). -/
theorem C2_snow_witness :
    vertexColor 1 1 = snowColor ∧ vertexColor 1 0 = oceanColor :=
  ⟨C2_snow_amended.1 1 1 (by norm_num) (by norm_num),
   C2_snow_amended.2 1 0 (by norm_num)⟩

/-- Claim C3, counterexample: the pole vertex of the low-poly base sphere
has radius 2 and zero noise sum, so the claim predicts displaced radius
2 * (1 + 0) = 2, but normalization discards the base radius and the
displaced vertex has radius 1. -/
theorem C3_radius_counterexample :
    norm3 ⟨0, 2, 0⟩ = 2 ∧
    norm3 (lowPolyDisplace ⟨0, 2, 0⟩) = 1 ∧
    norm3 (lowPolyDisplace ⟨0, 2, 0⟩) ≠ 2 * (1 + lowPolyNoiseSum ⟨0, 2, 0⟩) := by
  have h1 : norm3 (lowPolyDisplace ⟨0, 2, 0⟩) = 1 := by
    rw [lowPoly_displaced_radius ⟨0, 2, 0⟩ (by rw [norm3_pole2]; norm_num),
      lowPolyNoiseSum_pole]
    norm_num
  refine ⟨norm3_pole2, h1, ?_⟩
  rw [h1, lowPolyNoiseSum_pole]
  norm_num

/-- Claim C3, amended: for every nonzero vertex, the post-displacement
radial distance equals 1 * (1 + sum of the noise octaves) regardless of
the base radius, because normalize() rescales to unit length before the
multiplicative displacement; in particular the low-poly globe built on a
base radius 2 sphere produces radii 1 + sum, not 2 * (1 + sum). -/
theorem C3_radius_amended (v : Vec3) (hv : 0 < norm3 v) :
    norm3 (lowPolyDisplace v) = 1 * (1 + lowPolyNoiseSum v) ∧
    norm3 (webgpuDisplace v) = 1 * (1 + webgpuNoiseSum v) := by
  rw [one_mul, one_mul]
  exact ⟨lowPoly_displaced_radius v hv, webgpu_displaced_radius v hv⟩

/-- Claim C3, witness: the amended theorem applied at the pole vertex of
the radius-2 sphere. -/
theorem C3_radius_witness :
    norm3 (lowPolyDisplace ⟨0, 2, 0⟩) = 1 * (1 + lowPolyNoiseSum ⟨0, 2, 0⟩) ∧
    norm3 (webgpuDisplace ⟨0, 2, 0⟩) = 1 * (1 + webgpuNoiseSum ⟨0, 2, 0⟩) :=
  C3_radius_amended ⟨0, 2, 0⟩ (by rw [norm3_pole2]; norm_num)

/-- Claim C4, counterexample: in the spherical AccurateGlobe renderer,
clicking a country while auto-rotation is active selects the country but
leaves the controls auto-rotate flag set, contradicting the claim that
select disables auto-rotation in every renderer variant. -/
theorem C4_select_counterexample :
    accurateAutoRotatingState.autoRotate = true ∧
    (accurateHandleCountryClick franceFeature accurateAutoRotatingState).selectedCountry
      = some franceFeature ∧
    (accurateHandleCountryClick franceFeature accurateAutoRotatingState).autoRotate = true ∧
    (accurate50HandleCountryClick franceFeature accurateAutoRotatingState).autoRotate = true := by
  exact ⟨rfl, rfl, rfl, rfl⟩

/-- Claim C4, amended: performing select always records the selected
feature; the 2D projection renderer additionally disables auto-rotation,
while both spherical AccurateGlobe renderers leave the auto-rotate flag
unchanged. -/
theorem C4_select_amended (g : CountryFeature) (sp : Projection2DState)
    (sa : AccurateGlobeState) :
    ((proj2dHandleCountryClick g sp).selectedCountry = some g ∧
     (proj2dHandleCountryClick g sp).isRotating = false) ∧
    ((accurateHandleCountryClick g sa).selectedCountry = some g ∧
     (accurateHandleCountryClick g sa).autoRotate = sa.autoRotate) ∧
    ((accurate50HandleCountryClick g sa).selectedCountry = some g ∧
     (accurate50HandleCountryClick g sa).autoRotate = sa.autoRotate) :=
  ⟨⟨rfl, rfl⟩, ⟨rfl, rfl⟩, ⟨rfl, rfl⟩⟩

/-- Claim C5, counterexample: for the feature with ISO code FR the hash
folds to palette index 10, color 577590, yet the 2D projection renderer
and the 110m AccurateGlobe renderer both fill unselected, unhovered
features with the fixed color 49ac8f, so the fill is not derived from the
ISO hash in every variant. -/
theorem C5_color_counterexample :
    hashPaletteColor franceFeature = some "#577590" ∧
    proj2dBaseFill none none franceFeature = some "#49ac8f" ∧
    accurateCapColor none none franceFeature = some "#49ac8f" ∧
    (some "#49ac8f" : Option String) ≠ some "#577590" := by
  refine ⟨by decide, rfl, rfl, by decide⟩

/-- Claim C5, amended: only the 50m AccurateGlobe renderer derives the
base fill of unselected, unhovered features from the ISO code via the
string hash folded into the fixed palette; the 2D projection renderer and
the 110m AccurateGlobe renderer use the fixed base color 49ac8f for every
feature.  All three assignments are deterministic functions of the
feature, so a region keeps its base color within a session. -/
theorem C5_color_amended (f : CountryFeature) :
    accurate50CapColor none none f = hashPaletteColor f ∧
    proj2dBaseFill none none f = some "#49ac8f" ∧
    accurateCapColor none none f = some "#49ac8f" := by
  refine ⟨?_, ?_, ?_⟩ <;>
    simp [accurate50CapColor, proj2dBaseFill, accurateCapColor, getCountryColor,
      hashPaletteColor]

/-- Claim C6, counterexample: starting at the in-range zoom 1, the factor
6 clamps to 3 and a following factor 1/6 yields 1/2, while the single
factor 6 * (1/6) = 1 yields 1, so the two-step and one-step applications
differ. -/
theorem C6_zoom_counterexample :
    (1/2 : ℚ) ≤ 1 ∧ (1 : ℚ) ≤ 3 ∧
    applyZoom (1/6) (applyZoom 6 1) ≠ applyZoom (6 * (1/6)) 1 := by
  refine ⟨by norm_num, by norm_num, ?_⟩
  norm_num [applyZoom, clampZoom]

/-- Claim C6, amended: zoom composition holds whenever the intermediate
product z * f1 itself lies within the clamp range [0.5, 3]; then
clamping after f1 is the identity and the two-step result equals the
one-step result for the combined factor. -/
theorem C6_zoom_amended (z f1 f2 : ℚ) (h1 : 1/2 ≤ z * f1) (h2 : z * f1 ≤ 3) :
    applyZoom f2 (applyZoom f1 z) = applyZoom (f1 * f2) z := by
  unfold applyZoom clampZoom
  rw [min_eq_right h2, max_eq_right h1, mul_assoc]

/-- Claim C6, witness: the amended theorem applied at z = 1, f1 = 2,
f2 = 1, whose intermediate product 2 is in range. -/
theorem C6_zoom_witness : applyZoom 1 (applyZoom 2 1) = applyZoom (2 * 1) 1 :=
  C6_zoom_amended 1 2 1 (by norm_num) (by norm_num)

/-- Claim C7: capability detection is total, every probe environment other
than a successful adapter acquisition resolves to the basic tier (the
catch arm swallows rejections), and the basic tier generates the sphere
with 64 x 32 segments versus 128 x 64 for the advanced tier. -/
theorem C7_detect_theorem (env : GpuProbeEnv) :
    (env ≠ GpuProbeEnv.adapterResult true →
      checkWebGPU env = false ∧
      sphereWidthSegments (checkWebGPU env) = 64 ∧
      sphereHeightSegments (checkWebGPU env) = 32) ∧
    sphereWidthSegments true = 128 ∧ sphereHeightSegments true = 64 := by
  refine ⟨?_, rfl, rfl⟩
  intro h
  have hc : checkWebGPU env = false := by
    cases env with
    | noGpuInNavigator => rfl
    | gpuFieldNull => rfl
    | adapterResult p =>
        cases p with
        | false => rfl
        | true => exact absurd rfl h
    | requestAdapterThrows => rfl
  rw [hc]
  exact ⟨rfl, rfl, rfl⟩

/-- Claim C7, witness: the theorem applied to the environment in which
the advanced-GPU probe throws. -/
theorem C7_detect_witness :
    checkWebGPU GpuProbeEnv.requestAdapterThrows = false ∧
    sphereWidthSegments (checkWebGPU GpuProbeEnv.requestAdapterThrows) = 64 ∧
    sphereHeightSegments (checkWebGPU GpuProbeEnv.requestAdapterThrows) = 32 :=
  (C7_detect_theorem GpuProbeEnv.requestAdapterThrows).1 (by decide)

/-- Claim C8: a non-success fetch response takes the catch arm of
loadCountryData, which records the failure message, clears the loading
flag, leaves the country list empty, and makes the component render the
error placeholder instead of the map. -/
theorem C8_load_theorem (resp : FetchResponse) (h : resp.ok = false) :
    (loadCountryData resp initialLoaderState).error = some loadErrorMessage ∧
    (loadCountryData resp initialLoaderState).countries = [] ∧
    renderProjection2D (loadCountryData resp initialLoaderState)
      = RenderOutput.errorPlaceholder loadErrorMessage := by
  have hload : loadCountryData resp initialLoaderState
      = { countries := [], isLoading := false, error := some loadErrorMessage } := by
    unfold loadCountryData initialLoaderState
    rw [h]
    simp
  rw [hload]
  exact ⟨rfl, rfl, rfl⟩

/-- Claim C8, witness: the theorem applied to a 404 response. -/
theorem C8_load_witness :
    (loadCountryData notFoundResponse initialLoaderState).error = some loadErrorMessage ∧
    (loadCountryData notFoundResponse initialLoaderState).countries = [] ∧
    renderProjection2D (loadCountryData notFoundResponse initialLoaderState)
      = RenderOutput.errorPlaceholder loadErrorMessage :=
  C8_load_theorem notFoundResponse rfl

/-- Claim C9: procedural geometry generation is deterministic and reads
no random source: for either quality tier, the WebGPU globe geometry and
the low-poly globe geometry are unchanged under any change of the ambient
Math.random stream, so two runs with identical inputs produce identical
vertex positions and colors. -/
theorem C9_determinism_theorem (tier : Bool) (r1 r2 : ℕ → ℝ) :
    webgpuGeometry tier r1 = webgpuGeometry tier r2 ∧
    lowPolyGeometry r1 = lowPolyGeometry r2 :=
  ⟨rfl, rfl⟩

/-- Claim C10: for every feature, including one missing both ISO fields,
the palette index is Math.abs(hash) mod 19 and lies below the palette
length 19, so getCountryColor returns an existing palette entry and never
an out-of-bounds undefined. -/
theorem C10_palette_theorem (f : CountryFeature) :
    COUNTRY_COLORS.length = 19 ∧
    colorIndex (isoCodeOf f.props) < COUNTRY_COLORS.length ∧
    ∃ c, getCountryColor f = some c ∧ c ∈ COUNTRY_COLORS := by
  have hidx : colorIndex (isoCodeOf f.props) < COUNTRY_COLORS.length :=
    Nat.mod_lt _ (by norm_num [COUNTRY_COLORS])
  exact ⟨rfl, hidx,
    COUNTRY_COLORS.get ⟨_, hidx⟩, List.get?_eq_get hidx, List.get_mem _ _ _⟩

end PlaceTheCountry
